import Mathlib

/-!
Verification development for the `yosemite` SAMv3 client library.

This file gives a shallow embedding of the pure protocol core of the
repository: the reply-line parser (`src/proto/parser.rs`), the router
error taxonomy (`src/error.rs`), the session state machine
(`src/proto/session.rs`) and the byte-level datagram framing of the
synchronous adapter (`src/synchronous/session/style/datagram.rs`).

Strings of the Rust source are modelled as Lean `String`s (lists of
characters); the protocol is an ASCII line protocol, so one character
corresponds to one byte everywhere a byte offset matters. UDP packets
are modelled as lists of byte values (`List Nat`). Rust `panic!`,
`unwrap`, `todo!`, out-of-range slicing and `unreachable!` are modelled
by explicit `panicked`/`none` outcomes.
-/

namespace Yosemite

/-! ## Error taxonomy (`src/error.rs`) -/

/-- `I2pError` from `src/error.rs`: the closed set of router-reported errors. -/
inductive I2pError where
  | cantReachPeer
  | duplicatedDest
  | i2pError (message : Option String)
  | invalidKey
  | keyNotFound
  | peerNotFound
  | timeout
deriving DecidableEq, Repr

/-- `TryFrom<(&str, Option<&str>)> for I2pError`: decode a `RESULT=` token,
`none` models `Err(())`. -/
def I2pError.fromResult (result : String) (message : Option String) : Option I2pError :=
  if result = "CANT_REACH_PEER" then some .cantReachPeer
  else if result = "DUPLICATED_DEST" then some .duplicatedDest
  else if result = "I2P_ERROR" then some (.i2pError message)
  else if result = "INVALID_KEY" then some .invalidKey
  else if result = "KEY_NOT_FOUND" then some .keyNotFound
  else if result = "PEER_NOT_FOUND" then some .peerNotFound
  else if result = "TIMEOUT" then some .timeout
  else none

/-- `ProtocolError` from `src/error.rs`. -/
inductive ProtocolError where
  | invalidState
  | invalidMessage
  | router (error : I2pError)
deriving DecidableEq, Repr

/-! ## Character classes used by the nom grammar (`src/proto/parser.rs`) -/

/-- `char::is_whitespace` of Rust (Unicode `White_Space`), used by
`take_while1(|c| !c.is_whitespace())` in `parse_value`. -/
def rustWhitespace (c : Char) : Bool :=
  let n := c.toNat
  (9 ≤ n && n ≤ 13) || n = 32 || n = 0x85 || n = 0xa0 || n = 0x1680 ||
    (0x2000 ≤ n && n ≤ 0x200a) || n = 0x2028 || n = 0x2029 || n = 0x202f ||
    n = 0x205f || n = 0x3000

/-- nom `multispace0` character class: space, tab, carriage return, line feed. -/
def nomMultispace (c : Char) : Bool :=
  c = ' ' || c = '\t' || c = '\r' || c = '\n'

/-- ASCII alphabetic, as recognised by nom's `alpha1`. -/
def asciiAlpha (c : Char) : Bool :=
  ('A' ≤ c && c ≤ 'Z') || ('a' ≤ c && c ≤ 'z')

/-- ASCII alphanumeric or underscore: the tail characters of a key
(`many0_count(alt((alphanumeric1, tag("_"))))`). -/
def keyChar (c : Char) : Bool :=
  asciiAlpha c || ('0' ≤ c && c ≤ '9') || c = '_'

/-! ## nom combinators specialised to this grammar -/

/-- nom `tag`: consume an exact literal prefix, return the rest. -/
def tagP : List Char → List Char → Option (List Char)
  | [], l => some l
  | _ :: _, [] => none
  | p :: ps, c :: cs => if c = p then tagP ps cs else none

/-- `opt(char c)`: consume a single character `c` when present. -/
def optCharP (c : Char) : List Char → List Char
  | [] => []
  | d :: ds => if d = c then ds else d :: ds

/-- `take_while1 p`: longest non-empty prefix of characters satisfying `p`. -/
def takeWhile1 (p : Char → Bool) (l : List Char) : Option (List Char × List Char) :=
  match l.takeWhile p with
  | [] => none
  | t => some (t, l.dropWhile p)

/-- The inner content parser of `parse_quoted_value`:
`escaped(is_not("\\\""), '\\', alt((tag("\""), tag("\\"))))`. It greedily
consumes runs of characters other than `\` and `"`, and two-character
escapes `\"` or `\\`; the matched slice keeps the backslashes. -/
def escapedContent : List Char → List Char × List Char
  | [] => ([], [])
  | [c] =>
    if c = '\\' || c = '"' then ([], [c]) else ([c], [])
  | c :: d :: rest =>
    if c = '\\' then
      if d = '"' || d = '\\' then
        let (a, b) := escapedContent rest
        (c :: d :: a, b)
      else ([], c :: d :: rest)
    else if c = '"' then ([], c :: d :: rest)
    else
      let (a, b) := escapedContent (d :: rest)
      (c :: a, b)

/-- `parse_quoted_value`: a `"`-delimited escaped string. nom's `escaped`
fails with `ErrorKind::Escaped` when it can consume nothing at a non-empty
input — the first character after the opening quote being another quote —
so an empty quoted value `""` does not parse here and `parse_value` falls
back to the bare word, keeping the quote characters. nom's other error
paths (a trailing backslash, an invalid escape) leave `escapedContent`'s
rest at the offending backslash, where the closing-quote check below fails
exactly as the source combinator does. -/
def parseQuoted (l : List Char) : Option (List Char × List Char) :=
  match l with
  | '"' :: '"' :: _ => none
  | '"' :: rest =>
    match escapedContent rest with
    | (content, '"' :: rest₂) => some (content, rest₂)
    | _ => none
  | _ => none

/-- `parse_value`: a quoted value, or else a bare word of non-whitespace. -/
def parseValue (l : List Char) : Option (List Char × List Char) :=
  match parseQuoted l with
  | some r => some r
  | none => takeWhile1 (fun c => !rustWhitespace c) l

/-- `parse_key`: `[A-Za-z_]` followed by the longest run of `[A-Za-z0-9_]`. -/
def parseKey (l : List Char) : Option (List Char × List Char) :=
  match l with
  | [] => none
  | c :: _ =>
    if asciiAlpha c || c = '_' then some (l.takeWhile keyChar, l.dropWhile keyChar)
    else none

/-- `parse_key_value`: `key '=' value`. -/
def parseKeyValue (l : List Char) : Option ((List Char × List Char) × List Char) :=
  match parseKey l with
  | none => none
  | some (k, rest) =>
    match rest with
    | '=' :: rest₂ =>
      match parseValue rest₂ with
      | none => none
      | some (v, rest₃) => some ((k, v), rest₃)
    | _ => none

/-- `many0(preceded(multispace0, parse_key_value))`, fuel-indexed. Each
successful iteration consumes at least two characters, so fuel equal to the
input length always suffices; when an iteration fails, the whitespace it
skipped is rolled back exactly as nom's `many0` does. -/
def parseKvs (fuel : Nat) (l : List Char) :
    List (List Char × List Char) × List Char :=
  match fuel with
  | 0 => ([], l)
  | fuel + 1 =>
    match parseKeyValue (l.dropWhile nomMultispace) with
    | none => ([], l)
    | some (kv, rest) =>
      let (kvs, rest₂) := parseKvs fuel rest
      (kv :: kvs, rest₂)

/-- `HashMap::get` after `collect` from the parsed pair list: the last
occurrence of a duplicated key wins. -/
def lookupKv (kvs : List (List Char × List Char)) (k : List Char) : Option (List Char) :=
  (kvs.reverse.find? (fun p => p.1 = k)).map (·.2)

/-! ## Typed responses (`Response` in `src/proto/parser.rs`) -/

deriving instance DecidableEq for Except

/-- `Response`: a typed SAMv3 reply. -/
inductive Response where
  | hello (version : Except I2pError String)
  | session (destination : Except I2pError String)
  | subsession (sessionId : Except I2pError String)
  | stream (result : Except I2pError Unit)
  | namingLookup (result : Except I2pError String)
  | destinationGeneration (destination : String) (privateKey : String)
deriving DecidableEq, Repr

/-- Outcome of `Response::parse`: a typed response, "no parse", or a Rust
panic (the `todo!()` arm of `TryFrom<ParsedCommand> for Response`). -/
inductive ParseOutcome where
  | found (r : Response)
  | noParse
  | panicked
deriving DecidableEq, Repr

/-- `TryFrom<ParsedCommand> for Response`, lifted to `ParseOutcome`:
`Err(())` of the Rust impl becomes `noParse` (nom maps it to a parse
failure) and the `_ => todo!()` fallback becomes `panicked`. -/
def responseOfParsed (cmd : String) (sub : Option String)
    (kvs : List (List Char × List Char)) : ParseOutcome :=
  if cmd = "HELLO" ∧ sub = some "REPLY" then
    match lookupKv kvs "VERSION".data with
    | some v => .found (.hello (.ok ⟨v⟩))
    | none =>
      match lookupKv kvs "RESULT".data with
      | none => .noParse
      | some result =>
        match I2pError.fromResult ⟨result⟩ ((lookupKv kvs "MESSAGE".data).map (⟨·⟩)) with
        | none => .noParse
        | some e => .found (.hello (.error e))
  else if cmd = "SESSION" ∧ sub = some "STATUS" then
    match lookupKv kvs "DESTINATION".data with
    | some d => .found (.session (.ok ⟨d⟩))
    | none =>
      match lookupKv kvs "RESULT".data with
      | none => .noParse
      | some result =>
        match lookupKv kvs "ID".data with
        | some sessionId =>
          if result = "OK".data then .found (.subsession (.ok ⟨sessionId⟩))
          else
            match I2pError.fromResult ⟨result⟩ ((lookupKv kvs "MESSAGE".data).map (⟨·⟩)) with
            | none => .noParse
            | some e => .found (.session (.error e))
        | none =>
          match I2pError.fromResult ⟨result⟩ ((lookupKv kvs "MESSAGE".data).map (⟨·⟩)) with
          | none => .noParse
          | some e => .found (.session (.error e))
  else if cmd = "STREAM" ∧ sub = some "STATUS" then
    match lookupKv kvs "RESULT".data with
    | none => .noParse
    | some result =>
      if result = "OK".data then .found (.stream (.ok ()))
      else
        match I2pError.fromResult ⟨result⟩ ((lookupKv kvs "MESSAGE".data).map (⟨·⟩)) with
        | none => .noParse
        | some e => .found (.stream (.error e))
  else if cmd = "NAMING" ∧ sub = some "REPLY" then
    match lookupKv kvs "RESULT".data with
    | none => .noParse
    | some result =>
      if result = "OK".data then
        match lookupKv kvs "VALUE".data with
        | none => .noParse
        | some d => .found (.namingLookup (.ok ⟨d⟩))
      else
        match I2pError.fromResult ⟨result⟩ ((lookupKv kvs "MESSAGE".data).map (⟨·⟩)) with
        | none => .noParse
        | some e => .found (.namingLookup (.error e))
  else if cmd = "DEST" ∧ sub = some "REPLY" then
    match lookupKv kvs "PUB".data, lookupKv kvs "PRIV".data with
    | some d, some k => .found (.destinationGeneration ⟨d⟩ ⟨k⟩)
    | _, _ => .noParse
  else
    .panicked

/-- The verb alternation of `parse_inner`: try the five verbs in nom order. -/
def parseVerb (l : List Char) : Option (String × List Char) :=
  match tagP "HELLO".data l with
  | some r => some ("HELLO", r)
  | none =>
  match tagP "SESSION".data l with
  | some r => some ("SESSION", r)
  | none =>
  match tagP "STREAM".data l with
  | some r => some ("STREAM", r)
  | none =>
  match tagP "NAMING".data l with
  | some r => some ("NAMING", r)
  | none =>
  match tagP "DEST".data l with
  | some r => some ("DEST", r)
  | none => none

/-- The subverb alternation: `opt(alt((tag("REPLY"), tag("STATUS"), tag("REPLY"))))`. -/
def parseSubverb (l : List Char) : Option String × List Char :=
  match tagP "REPLY".data l with
  | some r => (some "REPLY", r)
  | none =>
  match tagP "STATUS".data l with
  | some r => (some "STATUS", r)
  | none => (none, l)

/-- `Response::parse_inner` on a character list. -/
def parseResponseList (l : List Char) : ParseOutcome :=
  match parseVerb l with
  | none => .noParse
  | some (cmd, r₁) =>
    let r₂ := optCharP ' ' r₁
    let (sub, r₃) := parseSubverb r₂
    let r₄ := optCharP ' ' r₃
    let kvs := (parseKvs r₄.length r₄).1
    responseOfParsed cmd sub kvs

/-- `Response::parse`. -/
def Response.parse (input : String) : ParseOutcome :=
  parseResponseList input.data

/-! ## Session options and parameters (`src/options.rs`, `style::private`) -/

/-- `DestinationKind`: transient or persistent destination. -/
inductive DestinationKind where
  | transient
  | persistent (private_key : String)
deriving DecidableEq, Repr

/-- The fields of `SessionOptions` read by `SessionController`. -/
structure SessionOptions where
  nickname : String
  destination : DestinationKind
  publish_lease_set : Bool
  inbound_len : Nat
  inbound_qty : Nat
  outbound_len : Nat
  outbound_qty : Nat
  datagram_port : Nat
  datagram_host : String
  from_port : Nat
  to_port : Nat
  protocol : Nat
  header : Bool
  silent_forward : Bool
deriving DecidableEq, Repr

/-- `SessionParameters` from `style::private`: the style string plus
style-specific key-value pairs. -/
structure SessionParameters where
  style : String
  options : List (String × String)
deriving DecidableEq, Repr

/-- `StreamOptions`: source and destination ports of a `STREAM CONNECT`. -/
structure StreamOptions where
  src_port : Nat
  dst_port : Nat
deriving DecidableEq, Repr

/-! ## Session state machine (`src/proto/session.rs`) -/

/-- `StreamKind`: which stream command is pending. -/
inductive StreamKind where
  | accept
  | connect
  | forward
deriving DecidableEq, Repr

/-- `StreamState`: the per-operation overlay on an active session. -/
inductive StreamState where
  | uninitialized
  | handshaking
  | handshaked
  | pending (kind : StreamKind)
deriving DecidableEq, Repr

/-- `SessionState`. -/
inductive SessionState where
  | uninitialized
  | handshaking
  | handshaked
  | sessionCreatePending
  | subsessionCreatePending (destination : String)
  | active (destination : String) (stream_state : StreamState)
  | poisoned
deriving DecidableEq, Repr

/-- `SessionController`: options plus current state. -/
structure SessionController where
  options : SessionOptions
  state : SessionState
deriving DecidableEq, Repr

/-- Result of a controller operation: the returned value or protocol error
together with the controller as the call leaves it, or a Rust panic. -/
inductive CtrlResult (α : Type) where
  | ok (value : α) (ctrl : SessionController)
  | err (error : ProtocolError) (ctrl : SessionController)
  | panicked
deriving DecidableEq, Repr

/-- Rust `bool` `Display`. -/
def boolString (b : Bool) : String := if b then "true" else "false"

/-- The `{key}={value} ` accumulation over `parameters.options`. -/
def kvPairsString (options : List (String × String)) : String :=
  options.foldl (fun acc kv => acc ++ kv.1 ++ "=" ++ kv.2 ++ " ") ""

/-- The `DESTINATION=` fragment appended for `STREAM` and `DATAGRAM` styles. -/
def destinationKv : DestinationKind → String
  | .transient => "DESTINATION=TRANSIENT "
  | .persistent private_key => "DESTINATION=" ++ private_key ++ " "

/-- The `i2cp.dontPublishLeaseSet=true ` fragment, present iff
`publish_lease_set` is false. -/
def publishKv (o : SessionOptions) : String :=
  if o.publish_lease_set then "" else "i2cp.dontPublishLeaseSet=true "

/-- The two tunnel-parameter fragments shared by every style arm. -/
def tunnelKv (o : SessionOptions) : String :=
  "inbound.length=" ++ toString o.inbound_len ++ " inbound.quantity=" ++
    toString o.inbound_qty ++ " " ++
  "outbound.length=" ++ toString o.outbound_len ++ " outbound.quantity=" ++
    toString o.outbound_qty ++ " "

/-- The fixed tail of every `SESSION CREATE` command. -/
def sessionCreateTail : String := "SIGNATURE_TYPE=7 i2cp.leaseSetEncType=4\n"

namespace SessionController

/-- `SessionController::new`. -/
def new (options : SessionOptions) : SessionController :=
  { options, state := .uninitialized }

/-- `SessionController::handshake_session`. -/
def handshake_session (c : SessionController) : CtrlResult String :=
  match c.state with
  | .uninitialized => .ok "HELLO VERSION\n" { c with state := .handshaking }
  | _ => .err .invalidState { c with state := .poisoned }

/-- `SessionController::create_session`. The state is moved to
`SessionCreatePending` before the style dispatch, so an unsupported style
string leaves that state in place while returning `InvalidMessage`. -/
def create_session (c : SessionController) (parameters : SessionParameters) :
    CtrlResult String :=
  match c.state with
  | .handshaked =>
    let c' : SessionController := { c with state := .sessionCreatePending }
    let command := "SESSION CREATE STYLE=" ++ parameters.style ++ " ID=" ++
      c.options.nickname ++ " "
    if parameters.style = "STREAM" then
      .ok (command ++ kvPairsString parameters.options ++
        destinationKv c.options.destination ++ publishKv c.options ++
        tunnelKv c.options ++ sessionCreateTail) c'
    else if parameters.style = "RAW" then
      .ok (command ++ kvPairsString parameters.options ++
        "PORT=" ++ toString c.options.datagram_port ++
        " HOST=" ++ c.options.datagram_host ++
        " FROM_PORT=" ++ toString c.options.from_port ++
        " TO_PORT=" ++ toString c.options.to_port ++
        " PROTOCOL=" ++ toString c.options.protocol ++
        " HEADER=" ++ boolString c.options.header ++
        publishKv c.options ++ tunnelKv c.options ++ sessionCreateTail) c'
    else if parameters.style = "DATAGRAM" then
      .ok (command ++ kvPairsString parameters.options ++
        destinationKv c.options.destination ++
        "PORT=" ++ toString c.options.datagram_port ++
        " HOST=" ++ c.options.datagram_host ++
        " FROM_PORT=" ++ toString c.options.from_port ++
        " TO_PORT=" ++ toString c.options.to_port ++
        publishKv c.options ++ tunnelKv c.options ++ sessionCreateTail) c'
    else
      .err .invalidMessage c'
  | _ => .err .invalidState { c with state := .poisoned }

/-- `SessionController::create_subsession`. -/
def create_subsession (c : SessionController) (nickname : String)
    (parameters : SessionParameters) : CtrlResult String :=
  match c.state with
  | .active destination _ =>
    .ok ("SESSION ADD STYLE=" ++ parameters.style ++ " ID=" ++ nickname ++ " " ++
      kvPairsString parameters.options ++ "\n")
      { c with state := .subsessionCreatePending destination }
  | _ => .err .invalidState { c with state := .poisoned }

/-- `SessionController::handshake_stream`. -/
def handshake_stream (c : SessionController) : CtrlResult String :=
  match c.state with
  | .active destination .uninitialized =>
    .ok "HELLO VERSION\n" { c with state := .active destination .handshaking }
  | _ => .err .invalidState { c with state := .poisoned }

/-- `SessionController::create_stream`. The `tracing::info!` call slices the
first ten bytes of the session's own destination
(`&destination[..10]`), which panics when the destination is shorter;
for the ASCII destinations of this protocol a byte is a character. -/
def create_stream (c : SessionController) (remote_destination : String)
    (options : StreamOptions) : CtrlResult String :=
  match c.state with
  | .active destination .handshaked =>
    if destination.data.length < 10 then .panicked
    else
      .ok ("STREAM CONNECT ID=" ++ c.options.nickname ++
        " DESTINATION=" ++ remote_destination ++
        " FROM_PORT=" ++ toString options.src_port ++
        " TO_PORT=" ++ toString options.dst_port ++ " SILENT=false\n")
        { c with state := .active destination (.pending .connect) }
  | _ => .err .invalidState { c with state := .poisoned }

/-- `SessionController::accept_stream`. -/
def accept_stream (c : SessionController) : CtrlResult String :=
  match c.state with
  | .active destination .handshaked =>
    .ok ("STREAM ACCEPT ID=" ++ c.options.nickname ++ " SILENT=false\n")
      { c with state := .active destination (.pending .accept) }
  | _ => .err .invalidState { c with state := .poisoned }

/-- `SessionController::forward_stream`. -/
def forward_stream (c : SessionController) (port : Nat) : CtrlResult String :=
  match c.state with
  | .active destination .handshaked =>
    .ok ("STREAM FORWARD ID=" ++ c.options.nickname ++ " PORT=" ++ toString port ++
      " SILENT=" ++ boolString c.options.silent_forward ++ "\n")
      { c with state := .active destination (.pending .forward) }
  | _ => .err .invalidState { c with state := .poisoned }

/-- `SessionController::handle_response`. The source first swaps the state
for `Poisoned`; every branch that does not explicitly restore a state
therefore leaves the controller poisoned. A `panicked` parse outcome (the
parser's `todo!()`) unwinds through this function. -/
def handle_response (c : SessionController) (response : String) : CtrlResult Unit :=
  match c.state with
  | .handshaking =>
    match Response.parse response with
    | .found (.hello (.ok _)) => .ok () { c with state := .handshaked }
    | .found (.hello (.error e)) => .err (.router e) { c with state := .poisoned }
    | .noParse => .err .invalidMessage { c with state := .poisoned }
    | .found _ => .err .invalidState { c with state := .poisoned }
    | .panicked => .panicked
  | .sessionCreatePending =>
    match Response.parse response with
    | .found (.session (.ok destination)) =>
      .ok () { c with state := .active destination .uninitialized }
    | .found (.session (.error e)) => .err (.router e) { c with state := .poisoned }
    | .noParse => .err .invalidMessage { c with state := .poisoned }
    | .found _ => .err .invalidState { c with state := .poisoned }
    | .panicked => .panicked
  | .subsessionCreatePending destination =>
    match Response.parse response with
    | .found (.subsession (.ok _)) =>
      .ok () { c with state := .active destination .uninitialized }
    | .found (.subsession (.error e)) => .err (.router e) { c with state := .poisoned }
    | .noParse => .err .invalidMessage { c with state := .poisoned }
    | .found _ => .err .invalidState { c with state := .poisoned }
    | .panicked => .panicked
  | .active destination .handshaking =>
    match Response.parse response with
    | .found (.hello (.ok _)) => .ok () { c with state := .active destination .handshaked }
    | .found (.hello (.error e)) => .err (.router e) { c with state := .poisoned }
    | .noParse => .err .invalidMessage { c with state := .poisoned }
    | .found _ => .err .invalidState { c with state := .poisoned }
    | .panicked => .panicked
  | .active destination (.pending _) =>
    match Response.parse response with
    | .found (.stream (.ok _)) =>
      .ok () { c with state := .active destination .uninitialized }
    | .found (.stream (.error e)) =>
      .err (.router e) { c with state := .active destination .uninitialized }
    | .noParse => .err .invalidMessage { c with state := .poisoned }
    | .found _ => .err .invalidState { c with state := .poisoned }
    | .panicked => .panicked
  | _ => .err .invalidState { c with state := .poisoned }

/-- `SessionController::destination`: `none` models the panic taken when the
session is not active. -/
def destination (c : SessionController) : Option String :=
  match c.state with
  | .active destination _ => some destination
  | _ => none

/-- `SessionController::new_for_subsession`: `none` models the
`unreachable!()` panic taken from any state other than
`Active { _, Uninitialized }`. -/
def new_for_subsession (c : SessionController) (options : SessionOptions) :
    Option SessionController :=
  match c.state with
  | .active destination .uninitialized =>
    some { options, state := .active destination .uninitialized }
  | _ => none

end SessionController

/-! ## Repliable datagram framing (`src/synchronous/session/style/datagram.rs`) -/

/-- A UTF-8 continuation byte. -/
def contByte (b : Nat) : Bool := 0x80 ≤ b && b ≤ 0xbf

/-- Consume one well-formed UTF-8 scalar from the front of a byte sequence
(RFC 3629: shortest forms only, no surrogates, max `U+10FFFF`), returning
the remaining bytes. -/
def utf8Advance (l : List Nat) : Option (List Nat) :=
  match l with
  | [] => none
  | b :: rest =>
    if b ≤ 0x7f then some rest
    else if 0xc2 ≤ b && b ≤ 0xdf then
      match rest with
      | c :: rest₂ => if contByte c then some rest₂ else none
      | [] => none
    else if b = 0xe0 then
      match rest with
      | c :: d :: rest₂ =>
        if (0xa0 ≤ c && c ≤ 0xbf) && contByte d then some rest₂ else none
      | _ => none
    else if (0xe1 ≤ b && b ≤ 0xec) || b = 0xee || b = 0xef then
      match rest with
      | c :: d :: rest₂ => if contByte c && contByte d then some rest₂ else none
      | _ => none
    else if b = 0xed then
      match rest with
      | c :: d :: rest₂ =>
        if (0x80 ≤ c && c ≤ 0x9f) && contByte d then some rest₂ else none
      | _ => none
    else if b = 0xf0 then
      match rest with
      | c :: d :: e :: rest₂ =>
        if (0x90 ≤ c && c ≤ 0xbf) && contByte d && contByte e then some rest₂ else none
      | _ => none
    else if 0xf1 ≤ b && b ≤ 0xf3 then
      match rest with
      | c :: d :: e :: rest₂ =>
        if contByte c && contByte d && contByte e then some rest₂ else none
      | _ => none
    else if b = 0xf4 then
      match rest with
      | c :: d :: e :: rest₂ =>
        if (0x80 ≤ c && c ≤ 0x8f) && contByte d && contByte e then some rest₂ else none
      | _ => none
    else none

/-- Fuel-indexed UTF-8 validation loop; `utf8Advance` consumes at least one
byte per step, so fuel equal to the input length always suffices. -/
def validUtf8Fuel : Nat → List Nat → Bool
  | _, [] => true
  | 0, _ :: _ => false
  | fuel + 1, l =>
    match utf8Advance l with
    | none => false
    | some rest => validUtf8Fuel fuel rest

/-- UTF-8 validity of a byte sequence, as checked by `std::str::from_utf8`. -/
def validUtf8 (l : List Nat) : Bool := validUtf8Fuel l.length l

/-- UTF-8 encoding of one character. -/
def utf8EncodeChar (c : Char) : List Nat :=
  let n := c.toNat
  if n < 0x80 then [n]
  else if n < 0x800 then [0xc0 + n / 64, 0x80 + n % 64]
  else if n < 0x10000 then [0xe0 + n / 4096, 0x80 + (n / 64) % 64, 0x80 + n % 64]
  else [0xf0 + n / 262144, 0x80 + (n / 4096) % 64, 0x80 + (n / 64) % 64, 0x80 + n % 64]

/-- `str::as_bytes`: the UTF-8 bytes of a string. -/
def strBytes (s : String) : List Nat := (s.data.map utf8EncodeChar).flatten

/-- The internal read buffer of the synchronous `Repliable` holds `0xfff` bytes;
`socket.recv` truncates longer packets to it. -/
def repliableBufferSize : Nat := 0xfff

/-- `Iterator::position`: index of the first element satisfying `p`. -/
def position (p : Nat → Bool) : List Nat → Option Nat
  | [] => none
  | b :: rest => if p b then some 0 else (position p rest).map (· + 1)

/-- Outcome of `Repliable::recv_from`: the returned datagram length and source
destination bytes together with the bytes copied into the caller's buffer,
the `Error::Malformed` return, or a Rust panic. -/
inductive RecvOutcome where
  | ok (nread : Nat) (destination : List Nat) (buf : List Nat)
  | malformed
  | panicked
deriving DecidableEq, Repr

namespace Repliable

/-- `Repliable::send_to`: the single UDP packet built for payload `buf` sent
to `destination` — the header `3.0 <nickname> <destination>\n` followed by
the payload bytes. -/
def send_to (nickname destination : String) (buf : List Nat) : List Nat :=
  strBytes ("3.0 " ++ nickname ++ " " ++ destination ++ "\n") ++ buf

/-- `Repliable::recv_from` on an inbound packet, with a caller buffer of
`bufLen` bytes. The two `position(..).unwrap()` calls panic when the packet
holds no space or no newline, and `buf[..datagram_len]` panics when the
payload exceeds the caller's buffer; a source destination that is not valid
UTF-8 is returned as `Error::Malformed`. -/
def recv_from (packet : List Nat) (bufLen : Nat) : RecvOutcome :=
  let data := packet.take repliableBufferSize
  match position (· = 32) data with
  | none => .panicked
  | some destination_end =>
    let destination := data.take destination_end
    if validUtf8 destination then
      match position (· = 10) data with
      | none => .panicked
      | some header_end =>
        let datagram_len := data.length - header_end - 1
        if bufLen < datagram_len then .panicked
        else .ok datagram_len destination (data.drop (header_end + 1))
    else .malformed

end Repliable

/-! ## Helper definitions for the statements -/

/-- The controller as an operation leaves it, when the call returns (panics
excluded). -/
def CtrlResult.ctrl {α : Type} : CtrlResult α → Option SessionController
  | .ok _ c => some c
  | .err _ c => some c
  | .panicked => none

/-- Whether an operation returned `Ok`. -/
def CtrlResult.isOk {α : Type} : CtrlResult α → Bool
  | .ok _ _ => true
  | _ => false

/-- A non-empty word of non-whitespace, non-quote characters: the shape of a
bare value token in a SAMv3 reply line. -/
def plainToken (s : String) : Prop :=
  s.data ≠ [] ∧ ∀ c ∈ s.data, rustWhitespace c = false ∧ c ≠ '"'

instance (s : String) : Decidable (plainToken s) := by
  unfold plainToken; infer_instance

/-- Whether a parse outcome is the response variant `handle_response` expects
in the given state (a router-error payload still matches its variant). -/
def matchesExpected (s : SessionState) (o : ParseOutcome) : Bool :=
  match s, o with
  | .handshaking, .found (.hello _) => true
  | .sessionCreatePending, .found (.session _) => true
  | .subsessionCreatePending _, .found (.subsession _) => true
  | .active _ .handshaking, .found (.hello _) => true
  | .active _ (.pending _), .found (.stream _) => true
  | _, _ => false

/-- Concrete options used by the witnesses: the defaults of
`SessionOptions::default()` with fixed nickname `N`. -/
def sampleOptions : SessionOptions :=
  { nickname := "N", destination := .transient, publish_lease_set := true,
    inbound_len := 3, inbound_qty := 2, outbound_len := 3, outbound_qty := 2,
    datagram_port := 0, datagram_host := "127.0.0.1", from_port := 0, to_port := 0,
    protocol := 18, header := false, silent_forward := false }

/-! ## Parser lemmas -/

lemma takeWhile_eq_self_of {p : Char → Bool} {v : List Char}
    (h : ∀ c ∈ v, p c = true) : v.takeWhile p = v := by
  induction v with
  | nil => rfl
  | cons c cs ih =>
    simp only [List.takeWhile_cons, h c (by simp), if_true]
    rw [ih (fun d hd => h d (by simp [hd]))]

lemma dropWhile_eq_nil_of {p : Char → Bool} {v : List Char}
    (h : ∀ c ∈ v, p c = true) : v.dropWhile p = [] := by
  induction v with
  | nil => rfl
  | cons c cs ih =>
    simp only [List.dropWhile_cons, h c (by simp), if_true]
    exact ih (fun d hd => h d (by simp [hd]))

lemma parseKvs_succ_some {l kv rest} (fuel : Nat)
    (h : parseKeyValue (l.dropWhile nomMultispace) = some (kv, rest)) :
    parseKvs (fuel + 1) l =
      ((kv :: (parseKvs fuel rest).1), (parseKvs fuel rest).2) := by
  simp [parseKvs, h]

lemma parseKvs_none {l} (fuel : Nat)
    (h : parseKeyValue (l.dropWhile nomMultispace) = none) :
    parseKvs fuel l = ([], l) := by
  cases fuel <;> simp [parseKvs, h]

/-- A plain token parses as one bare value consuming the whole input. -/
lemma parseValue_token {v : List Char} (hne : v ≠ [])
    (hv : ∀ c ∈ v, rustWhitespace c = false ∧ c ≠ '"') :
    parseValue v = some (v, []) := by
  cases v with
  | nil => exact absurd rfl hne
  | cons c cs =>
    have hc := hv c (by simp)
    have htw : (c :: cs).takeWhile (fun c => !rustWhitespace c) = c :: cs :=
      takeWhile_eq_self_of (fun d hd => by simp [(hv d hd).1])
    have hdw : (c :: cs).dropWhile (fun c => !rustWhitespace c) = [] :=
      dropWhile_eq_nil_of (fun d hd => by simp [(hv d hd).1])
    simp [parseValue, parseQuoted, hc.2, takeWhile1, htw, hdw]

/-- A successful session `HELLO` reply parses to `Hello { version: Ok(v) }`
for every plain version token `v`. -/
lemma parse_hello_ok (v : String) (hv : plainToken v) :
    Response.parse ("HELLO REPLY RESULT=OK VERSION=" ++ v) =
      .found (.hello (.ok v)) := by
  obtain ⟨hne, hch⟩ := hv
  rw [Response.parse, String.data_append]
  have hlit : ("HELLO REPLY RESULT=OK VERSION=").data =
      ['H','E','L','L','O',' ','R','E','P','L','Y',' ','R','E','S','U','L','T','=','O','K',
       ' ','V','E','R','S','I','O','N','='] := rfl
  rw [hlit]
  have h1 : parseKeyValue ((['R','E','S','U','L','T','=','O','K',' ','V','E','R','S','I','O','N','='] ++ v.data).dropWhile nomMultispace)
      = some ((['R','E','S','U','L','T'], ['O','K']), [' ','V','E','R','S','I','O','N','='] ++ v.data) := by
    simp [nomMultispace, parseKeyValue, parseKey, asciiAlpha, keyChar, List.takeWhile,
      List.dropWhile, parseValue, parseQuoted, takeWhile1, rustWhitespace]
  have h2 : parseKeyValue (([' ','V','E','R','S','I','O','N','='] ++ v.data).dropWhile nomMultispace)
      = some ((['V','E','R','S','I','O','N'], v.data), []) := by
    have hval := parseValue_token hne hch
    simp [nomMultispace, parseKeyValue, parseKey, asciiAlpha, keyChar, List.takeWhile,
      List.dropWhile, hval]
  have h0 : parseKeyValue (([] : List Char).dropWhile nomMultispace) = none := rfl
  unfold parseResponseList
  rw [show parseVerb (['H','E','L','L','O',' ','R','E','P','L','Y',' ','R','E','S','U','L','T','=','O','K',' ','V','E','R','S','I','O','N','='] ++ v.data)
      = some ("HELLO", [' ','R','E','P','L','Y',' ','R','E','S','U','L','T','=','O','K',' ','V','E','R','S','I','O','N','='] ++ v.data) from rfl]
  simp only []
  rw [show optCharP ' ' ([' ','R','E','P','L','Y',' ','R','E','S','U','L','T','=','O','K',' ','V','E','R','S','I','O','N','='] ++ v.data)
      = ['R','E','P','L','Y',' ','R','E','S','U','L','T','=','O','K',' ','V','E','R','S','I','O','N','='] ++ v.data from rfl]
  rw [show parseSubverb (['R','E','P','L','Y',' ','R','E','S','U','L','T','=','O','K',' ','V','E','R','S','I','O','N','='] ++ v.data)
      = (some "REPLY", [' ','R','E','S','U','L','T','=','O','K',' ','V','E','R','S','I','O','N','='] ++ v.data) from rfl]
  simp only []
  rw [show optCharP ' ' ([' ','R','E','S','U','L','T','=','O','K',' ','V','E','R','S','I','O','N','='] ++ v.data)
      = ['R','E','S','U','L','T','=','O','K',' ','V','E','R','S','I','O','N','='] ++ v.data from rfl]
  rw [show (['R','E','S','U','L','T','=','O','K',' ','V','E','R','S','I','O','N','='] ++ v.data).length
      = (v.data.length + 16) + 1 + 1 by simp [List.length_append]]
  rw [parseKvs_succ_some _ h1, parseKvs_succ_some _ h2, parseKvs_none _ h0]
  simp [responseOfParsed, lookupKv]

/-- A successful `SESSION STATUS` reply parses to
`Session { destination: Ok(d) }` for every plain destination token `d`. -/
lemma parse_session_ok (d : String) (hd : plainToken d) :
    Response.parse ("SESSION STATUS RESULT=OK DESTINATION=" ++ d) =
      .found (.session (.ok d)) := by
  obtain ⟨hne, hch⟩ := hd
  rw [Response.parse, String.data_append]
  have hlit : ("SESSION STATUS RESULT=OK DESTINATION=").data =
      ['S','E','S','S','I','O','N',' ','S','T','A','T','U','S',' ',
       'R','E','S','U','L','T','=','O','K',' ','D','E','S','T','I','N','A','T','I','O','N','='] := rfl
  rw [hlit]
  have h1 : parseKeyValue ((['R','E','S','U','L','T','=','O','K',' ','D','E','S','T','I','N','A','T','I','O','N','='] ++ d.data).dropWhile nomMultispace)
      = some ((['R','E','S','U','L','T'], ['O','K']), [' ','D','E','S','T','I','N','A','T','I','O','N','='] ++ d.data) := by
    simp [nomMultispace, parseKeyValue, parseKey, asciiAlpha, keyChar, List.takeWhile,
      List.dropWhile, parseValue, parseQuoted, takeWhile1, rustWhitespace]
  have h2 : parseKeyValue (([' ','D','E','S','T','I','N','A','T','I','O','N','='] ++ d.data).dropWhile nomMultispace)
      = some ((['D','E','S','T','I','N','A','T','I','O','N'], d.data), []) := by
    have hval := parseValue_token hne hch
    simp [nomMultispace, parseKeyValue, parseKey, asciiAlpha, keyChar, List.takeWhile,
      List.dropWhile, hval]
  have h0 : parseKeyValue (([] : List Char).dropWhile nomMultispace) = none := rfl
  unfold parseResponseList
  rw [show parseVerb (['S','E','S','S','I','O','N',' ','S','T','A','T','U','S',' ','R','E','S','U','L','T','=','O','K',' ','D','E','S','T','I','N','A','T','I','O','N','='] ++ d.data)
      = some ("SESSION", [' ','S','T','A','T','U','S',' ','R','E','S','U','L','T','=','O','K',' ','D','E','S','T','I','N','A','T','I','O','N','='] ++ d.data) from rfl]
  simp only []
  rw [show optCharP ' ' ([' ','S','T','A','T','U','S',' ','R','E','S','U','L','T','=','O','K',' ','D','E','S','T','I','N','A','T','I','O','N','='] ++ d.data)
      = ['S','T','A','T','U','S',' ','R','E','S','U','L','T','=','O','K',' ','D','E','S','T','I','N','A','T','I','O','N','='] ++ d.data from rfl]
  rw [show parseSubverb (['S','T','A','T','U','S',' ','R','E','S','U','L','T','=','O','K',' ','D','E','S','T','I','N','A','T','I','O','N','='] ++ d.data)
      = (some "STATUS", [' ','R','E','S','U','L','T','=','O','K',' ','D','E','S','T','I','N','A','T','I','O','N','='] ++ d.data) from rfl]
  simp only []
  rw [show optCharP ' ' ([' ','R','E','S','U','L','T','=','O','K',' ','D','E','S','T','I','N','A','T','I','O','N','='] ++ d.data)
      = ['R','E','S','U','L','T','=','O','K',' ','D','E','S','T','I','N','A','T','I','O','N','='] ++ d.data from rfl]
  rw [show (['R','E','S','U','L','T','=','O','K',' ','D','E','S','T','I','N','A','T','I','O','N','='] ++ d.data).length
      = (d.data.length + 20) + 1 + 1 by simp [List.length_append]]
  rw [parseKvs_succ_some _ h1, parseKvs_succ_some _ h2, parseKvs_none _ h0]
  simp [responseOfParsed, lookupKv]

end Yosemite

namespace Yosemite

/-- C1: from a fresh controller, `handshake_session` emits exactly
`HELLO VERSION\n`; handling `HELLO REPLY RESULT=OK VERSION=v` succeeds for
every plain version token `v`; `create_session` with any supported style
moves the controller to `SessionCreatePending` and succeeds; handling
`SESSION STATUS RESULT=OK DESTINATION=d` succeeds for every plain
destination token `d`, leaving the controller `Active { d, Uninitialized }`
with `destination()` returning `d`. -/
theorem c1_session_establishment (opts : SessionOptions)
    (parameters : SessionParameters) (v d : String)
    (hstyle : parameters.style = "STREAM" ∨ parameters.style = "DATAGRAM" ∨
      parameters.style = "RAW")
    (hv : plainToken v) (hd : plainToken d) :
    SessionController.handshake_session (SessionController.new opts) =
      .ok "HELLO VERSION\n" ⟨opts, .handshaking⟩ ∧
    SessionController.handle_response ⟨opts, .handshaking⟩
      ("HELLO REPLY RESULT=OK VERSION=" ++ v) = .ok () ⟨opts, .handshaked⟩ ∧
    (SessionController.create_session ⟨opts, .handshaked⟩ parameters).isOk = true ∧
    (SessionController.create_session ⟨opts, .handshaked⟩ parameters).ctrl =
      some ⟨opts, .sessionCreatePending⟩ ∧
    SessionController.handle_response ⟨opts, .sessionCreatePending⟩
      ("SESSION STATUS RESULT=OK DESTINATION=" ++ d) =
      .ok () ⟨opts, .active d .uninitialized⟩ ∧
    SessionController.destination ⟨opts, .active d .uninitialized⟩ = some d := by
  refine ⟨rfl, ?_, ?_, ?_, ?_, rfl⟩
  · simp [SessionController.handle_response, parse_hello_ok v hv]
  · rcases hstyle with h | h | h <;>
      simp [SessionController.create_session, h, CtrlResult.isOk]
  · rcases hstyle with h | h | h <;>
      simp [SessionController.create_session, h, CtrlResult.ctrl]
  · simp [SessionController.handle_response, parse_session_ok d hd]

/-- Witness for C1 at concrete inputs. -/
theorem c1_session_establishment_witness :
    SessionController.handshake_session (SessionController.new sampleOptions) =
      .ok "HELLO VERSION\n" ⟨sampleOptions, .handshaking⟩ ∧
    SessionController.handle_response ⟨sampleOptions, .handshaking⟩
      ("HELLO REPLY RESULT=OK VERSION=" ++ "3.3") = .ok () ⟨sampleOptions, .handshaked⟩ ∧
    (SessionController.create_session ⟨sampleOptions, .handshaked⟩
      ⟨"STREAM", []⟩).isOk = true ∧
    (SessionController.create_session ⟨sampleOptions, .handshaked⟩
      ⟨"STREAM", []⟩).ctrl = some ⟨sampleOptions, .sessionCreatePending⟩ ∧
    SessionController.handle_response ⟨sampleOptions, .sessionCreatePending⟩
      ("SESSION STATUS RESULT=OK DESTINATION=" ++ "AAA") =
      .ok () ⟨sampleOptions, .active "AAA" .uninitialized⟩ ∧
    SessionController.destination ⟨sampleOptions, .active "AAA" .uninitialized⟩ =
      some "AAA" :=
  c1_session_establishment sampleOptions ⟨"STREAM", []⟩ "3.3" "AAA"
    (Or.inl rfl) (by decide) (by decide)

/-- C2: in `Active { d, Pending(k) }` for any pending kind `k`, a reply that
parses to `STREAM STATUS RESULT=OK` returns `Ok`, and a reply that parses to
a `STREAM STATUS` router error `e` returns `Router(e)`; both leave the
controller `Active { d, Uninitialized }` with the destination unchanged. -/
theorem c2_pending_stream_resets (opts : SessionOptions) (d : String)
    (k : StreamKind) (line : String) :
    (Response.parse line = .found (.stream (.ok ())) →
      SessionController.handle_response ⟨opts, .active d (.pending k)⟩ line =
        .ok () ⟨opts, .active d .uninitialized⟩) ∧
    (∀ e : I2pError, Response.parse line = .found (.stream (.error e)) →
      SessionController.handle_response ⟨opts, .active d (.pending k)⟩ line =
        .err (.router e) ⟨opts, .active d .uninitialized⟩) := by
  constructor
  · intro h
    simp [SessionController.handle_response, h]
  · intro e h
    simp [SessionController.handle_response, h]

/-- Witness for C2 at concrete inputs. -/
theorem c2_pending_stream_resets_witness :
    SessionController.handle_response
      ⟨sampleOptions, .active "AAA" (.pending .connect)⟩ "STREAM STATUS RESULT=OK" =
      .ok () ⟨sampleOptions, .active "AAA" .uninitialized⟩ ∧
    SessionController.handle_response
      ⟨sampleOptions, .active "AAA" (.pending .accept)⟩
      "STREAM STATUS RESULT=CANT_REACH_PEER" =
      .err (.router .cantReachPeer) ⟨sampleOptions, .active "AAA" .uninitialized⟩ :=
  ⟨(c2_pending_stream_resets sampleOptions "AAA" .connect
      "STREAM STATUS RESULT=OK").1 (by decide),
   (c2_pending_stream_resets sampleOptions "AAA" .accept
      "STREAM STATUS RESULT=CANT_REACH_PEER").2 .cantReachPeer (by decide)⟩

end Yosemite

namespace Yosemite

/-- C3 (code bug): `create_session` has no `"PRIMARY"` arm; the style falls
through to the catch-all and the call returns `InvalidMessage` (with the
state already moved to `SessionCreatePending`), although the repository's
own `create_primary_and_subsession` test unwraps this call. -/
theorem c3_primary_create_session_rejected :
    SessionController.create_session ⟨sampleOptions, .handshaked⟩
      ⟨"PRIMARY", []⟩ = .err .invalidMessage ⟨sampleOptions, .sessionCreatePending⟩ := by
  decide

/-- C4 counterexample: in `Active { "DEST", Handshaking }`, the mismatched
reply `STREAM STATUS RESULT=OK` returns `InvalidState` but leaves the
controller `Poisoned`: the destination `DEST` that was observable before the
call is no longer present in the state afterwards. -/
theorem c4_destination_lost_counterexample :
    SessionController.destination ⟨sampleOptions, .active "DEST" .handshaking⟩ =
      some "DEST" ∧
    SessionController.handle_response ⟨sampleOptions, .active "DEST" .handshaking⟩
      "STREAM STATUS RESULT=OK" = .err .invalidState ⟨sampleOptions, .poisoned⟩ ∧
    SessionController.destination ⟨sampleOptions, .poisoned⟩ = none := by
  decide

/-- C4 (amended): for every state and every line that parses to a
non-expected variant or cleanly fails to parse (outcomes on which the parser
itself does not panic), `handle_response` returns `InvalidMessage` or
`InvalidState` and leaves the controller `Poisoned`; a previously active
session's destination is no longer observable. -/
theorem c4_mismatch_poisons (opts : SessionOptions) (s : SessionState)
    (line : String) (hnp : Response.parse line ≠ .panicked)
    (hmm : matchesExpected s (Response.parse line) = false) :
    SessionController.handle_response ⟨opts, s⟩ line =
      .err .invalidMessage ⟨opts, .poisoned⟩ ∨
    SessionController.handle_response ⟨opts, s⟩ line =
      .err .invalidState ⟨opts, .poisoned⟩ := by
  cases hs : Response.parse line with
  | panicked => exact absurd hs hnp
  | noParse =>
    cases s with
    | active d ss =>
      cases ss <;> simp [SessionController.handle_response, hs]
    | _ => simp [SessionController.handle_response, hs]
  | found r =>
    rw [hs] at hmm
    cases s with
    | handshaking =>
      cases r <;> simp_all [SessionController.handle_response, hs, matchesExpected]
    | sessionCreatePending =>
      cases r <;> simp_all [SessionController.handle_response, hs, matchesExpected]
    | subsessionCreatePending d =>
      cases r <;> simp_all [SessionController.handle_response, hs, matchesExpected]
    | active d ss =>
      cases ss <;> cases r <;>
        simp_all [SessionController.handle_response, hs, matchesExpected]
    | _ => simp [SessionController.handle_response, hs]

/-- Witness for the amended C4 at concrete inputs. -/
theorem c4_mismatch_poisons_witness :
    SessionController.handle_response ⟨sampleOptions, .handshaking⟩
      "SESSION STATUS RESULT=OK DESTINATION=AAA" =
      .err .invalidMessage ⟨sampleOptions, .poisoned⟩ ∨
    SessionController.handle_response ⟨sampleOptions, .handshaking⟩
      "SESSION STATUS RESULT=OK DESTINATION=AAA" =
      .err .invalidState ⟨sampleOptions, .poisoned⟩ :=
  c4_mismatch_poisons sampleOptions .handshaking
    "SESSION STATUS RESULT=OK DESTINATION=AAA" (by decide) (by decide)

end Yosemite

namespace Yosemite

/-- C5 (code bug): `create_stream` formats its log record from
`&destination[..10]` — the first ten bytes of the session's OWN destination,
not of the remote destination — so the call panics whenever the session's
destination is shorter than ten bytes, a state reachable from any
`SESSION STATUS RESULT=OK DESTINATION=short` reply. With a long enough own
destination the wire command does carry the full, unaltered remote
destination. -/
theorem c5_create_stream_truncation_panic :
    SessionController.handle_response ⟨sampleOptions, .sessionCreatePending⟩
      "SESSION STATUS RESULT=OK DESTINATION=short" =
      .ok () ⟨sampleOptions, .active "short" .uninitialized⟩ ∧
    SessionController.create_stream ⟨sampleOptions, .active "short" .handshaked⟩
      "REMOTEDESTINATION" ⟨0, 0⟩ = .panicked ∧
    SessionController.create_stream
      ⟨sampleOptions, .active "I2P_DESTINATION" .handshaked⟩ "REMOTE" ⟨0, 0⟩ =
      .ok "STREAM CONNECT ID=N DESTINATION=REMOTE FROM_PORT=0 TO_PORT=0 SILENT=false\n"
        ⟨sampleOptions, .active "I2P_DESTINATION" (.pending .connect)⟩ := by
  decide

set_option maxRecDepth 4096 in
/-- C6 (code bug): the `DATAGRAM` and `RAW` arms of `create_session` append
`TO_PORT=<n>` / `HEADER=<bool>` without a trailing space, so the emitted
command glues them to the next token (`inbound.length=<n>`, or
`i2cp.dontPublishLeaseSet=true` when publishing is disabled), violating the
space-separated command grammar. -/
theorem c6_missing_space_after_ports :
    SessionController.create_session ⟨sampleOptions, .handshaked⟩ ⟨"DATAGRAM", []⟩ =
      .ok ("SESSION CREATE STYLE=DATAGRAM ID=N DESTINATION=TRANSIENT PORT=0 HOST=127.0.0.1 FROM_PORT=0 TO_PORT=0inbound.length=3 inbound.quantity=2 outbound.length=3 outbound.quantity=2 SIGNATURE_TYPE=7 i2cp.leaseSetEncType=4\n")
        ⟨sampleOptions, .sessionCreatePending⟩ ∧
    SessionController.create_session ⟨sampleOptions, .handshaked⟩ ⟨"RAW", []⟩ =
      .ok ("SESSION CREATE STYLE=RAW ID=N PORT=0 HOST=127.0.0.1 FROM_PORT=0 TO_PORT=0 PROTOCOL=18 HEADER=falseinbound.length=3 inbound.quantity=2 outbound.length=3 outbound.quantity=2 SIGNATURE_TYPE=7 i2cp.leaseSetEncType=4\n")
        ⟨sampleOptions, .sessionCreatePending⟩ := by
  decide

/-- C7 (code bug): `Response::parse` is not total. A recognised verb with a
missing or mismatched subverb reaches the `_ => todo!()` arm of
`TryFrom<ParsedCommand> for Response` and panics instead of yielding
"no parse"; genuinely malformed inputs such as an unrecognised verb, a
missing required key, or `HELLO REPLY RESULT=OK` without `VERSION` do yield
"no parse". -/
theorem c7_parse_todo_panics :
    Response.parse "HELLO" = .panicked ∧
    Response.parse "HELLO STATUS RESULT=OK VERSION=3.3" = .panicked ∧
    Response.parse "SESSION REPLY RESULT=OK" = .panicked ∧
    Response.parse "TEST COMMAND KEY=VALUE" = .noParse ∧
    Response.parse "HELLO REPLY RESULT=OK" = .noParse ∧
    Response.parse "HELLO REPLY RESULT=UKNOWN_ERROR" = .noParse ∧
    Response.parse "STREAM STATUS" = .noParse := by
  decide

end Yosemite

namespace Yosemite

lemma position_append {p : Nat → Bool} {l1 l2 : List Nat} {x : Nat}
    (h1 : ∀ b ∈ l1, p b = false) (hx : p x = true) :
    position p (l1 ++ x :: l2) = some l1.length := by
  induction l1 with
  | nil => simp [position, hx]
  | cons a l ih =>
    simp [position, h1 a (by simp), ih (fun b hb => h1 b (by simp [hb]))]

lemma position_none {p : Nat → Bool} {l : List Nat}
    (h : ∀ b ∈ l, p b = false) : position p l = none := by
  induction l with
  | nil => rfl
  | cons a l ih => simp [position, h a (by simp), ih (fun b hb => h b (by simp [hb]))]

lemma validUtf8Fuel_of_ascii {l : List Nat} (fuel : Nat) (h : ∀ b ∈ l, b < 128)
    (hfuel : l.length ≤ fuel) : validUtf8Fuel fuel l = true := by
  induction fuel generalizing l with
  | zero => cases l with
    | nil => rfl
    | cons b rest => simp at hfuel
  | succ fuel ih =>
    cases l with
    | nil => rfl
    | cons b rest =>
      have hb : b ≤ 0x7f := by have := h b (by simp); omega
      have hadv : utf8Advance (b :: rest) = some rest := by
        simp [utf8Advance, hb]
      simp only [validUtf8Fuel, hadv]
      exact ih (fun c hc => h c (by simp [hc])) (by simp at hfuel ⊢; omega)

/-- ASCII byte sequences are valid UTF-8. -/
lemma validUtf8_of_ascii {l : List Nat} (h : ∀ b ∈ l, b < 128) :
    validUtf8 l = true :=
  validUtf8Fuel_of_ascii l.length h (Nat.le_refl _)


end Yosemite

namespace Yosemite

/-- Evaluation of `recv_from` on a well-framed inbound packet
`src ++ ' ' ++ hdr ++ '\n' ++ payload`: the call panics when the payload
exceeds the caller's buffer and otherwise returns the payload length, the
source-destination bytes and the payload. -/
lemma recv_from_structured (src hdr payload : List Nat) (bufLen : Nat)
    (hsrc32 : ∀ b ∈ src, b ≠ 32) (hsrc10 : ∀ b ∈ src, b ≠ 10)
    (hhdr10 : ∀ b ∈ hdr, b ≠ 10) (hascii : ∀ b ∈ src, b < 128)
    (hsize : src.length + hdr.length + payload.length + 2 ≤ repliableBufferSize) :
    Repliable.recv_from (src ++ 32 :: hdr ++ 10 :: payload) bufLen =
      if bufLen < payload.length then .panicked
      else .ok payload.length src payload := by
  have e1 : src ++ 32 :: hdr ++ 10 :: payload = src ++ 32 :: (hdr ++ 10 :: payload) := by
    simp
  have hlen : (src ++ 32 :: hdr ++ 10 :: payload).length =
      src.length + hdr.length + payload.length + 2 := by
    simp only [List.length_append, List.length_cons]; omega
  have htake : (src ++ 32 :: hdr ++ 10 :: payload).take repliableBufferSize =
      src ++ 32 :: hdr ++ 10 :: payload :=
    List.take_of_length_le (by rw [hlen]; exact hsize)
  have hpos32 : position (· = 32) (src ++ 32 :: hdr ++ 10 :: payload) =
      some src.length := by
    rw [e1]
    exact position_append (fun b hb => by simp [hsrc32 b hb]) (by simp)
  have htakedest : (src ++ 32 :: hdr ++ 10 :: payload).take src.length = src := by
    rw [e1]; exact List.take_left src _
  have hpos10 : position (· = 10) (src ++ 32 :: hdr ++ 10 :: payload) =
      some (src.length + hdr.length + 1) := by
    rw [show position (· = 10) (src ++ 32 :: hdr ++ 10 :: payload) =
        position (· = 10) ((src ++ 32 :: hdr) ++ 10 :: payload) from rfl]
    rw [position_append ?h1 (by simp)]
    · simp only [List.length_append, List.length_cons, Option.some.injEq]; omega
    case h1 =>
      intro b hb
      simp only [List.mem_append, List.mem_cons] at hb
      rcases hb with h | h | h
      · simp [hsrc10 b h]
      · subst h; decide
      · simp [hhdr10 b h]
  have hdrop : (src ++ 32 :: hdr ++ 10 :: payload).drop
      (src.length + hdr.length + 1 + 1) = payload := by
    rw [show src ++ 32 :: hdr ++ 10 :: payload = (src ++ 32 :: hdr ++ [10]) ++ payload
      by simp]
    rw [show src.length + hdr.length + 1 + 1 = (src ++ 32 :: hdr ++ [10]).length by
      simp only [List.length_append, List.length_cons, List.length_nil]; omega]
    exact List.drop_left _ _
  have harith : src.length + hdr.length + payload.length + 2 -
      (src.length + hdr.length + 1) - 1 = payload.length := by omega
  simp only [Repliable.recv_from, htake, hpos32, htakedest,
    validUtf8_of_ascii hascii, if_true, hpos10, hlen, harith, hdrop]

end Yosemite

namespace Yosemite

/-- C8: repliable datagram framing round-trips. `send_to` builds the single
packet `3.0 <nickname> <destination>\n` followed by the payload, and
`recv_from` on an inbound packet `src ++ ' ' ++ hdr ++ '\n' ++ payload`
returns the payload length and the source destination, with the payload in
the caller's buffer. -/
theorem c8_repliable_datagram_framing (nickname destination : String)
    (src hdr payload : List Nat) (bufLen : Nat)
    (hsrc32 : ∀ b ∈ src, b ≠ 32) (hsrc10 : ∀ b ∈ src, b ≠ 10)
    (hhdr10 : ∀ b ∈ hdr, b ≠ 10) (hascii : ∀ b ∈ src, b < 128)
    (hbuf : payload.length ≤ bufLen)
    (hsize : src.length + hdr.length + payload.length + 2 ≤ repliableBufferSize) :
    Repliable.send_to nickname destination payload =
      strBytes ("3.0 " ++ nickname ++ " " ++ destination ++ "\n") ++ payload ∧
    Repliable.recv_from (src ++ 32 :: hdr ++ 10 :: payload) bufLen =
      .ok payload.length src payload := by
  refine ⟨rfl, ?_⟩
  rw [recv_from_structured src hdr payload bufLen hsrc32 hsrc10 hhdr10 hascii hsize]
  rw [if_neg (by omega)]

/-- Witness for C8 at concrete inputs: source destination `SRC`, header
`HDR`, payload `[1, 2, 3]`. -/
theorem c8_repliable_datagram_framing_witness :
    Repliable.send_to "N" "DST" [1, 2, 3] =
      strBytes ("3.0 " ++ "N" ++ " " ++ "DST" ++ "\n") ++ [1, 2, 3] ∧
    Repliable.recv_from ([83, 82, 67] ++ 32 :: [72, 68, 82] ++ 10 :: [1, 2, 3]) 3 =
      .ok (List.length [1, 2, 3]) [83, 82, 67] [1, 2, 3] :=
  c8_repliable_datagram_framing "N" "DST" [83, 82, 67] [72, 68, 82] [1, 2, 3] 3
    (by decide) (by decide) (by decide) (by decide) (by decide) (by decide)

/-- C9: after a successful `SESSION ADD` round trip from `Active { d, * }`,
the parent is back in `Active { d, Uninitialized }` and the child controller
built by `new_for_subsession` starts in `Active { d, Uninitialized }` (never
in `Uninitialized`), with the same destination as the parent. -/
theorem c9_subsession_inherits_destination (opts opts₂ : SessionOptions)
    (nickname : String) (parameters : SessionParameters) (d sid : String)
    (ss : StreamState) (line : String)
    (hline : Response.parse line = .found (.subsession (.ok sid))) :
    SessionController.create_subsession ⟨opts, .active d ss⟩ nickname parameters =
      .ok ("SESSION ADD STYLE=" ++ parameters.style ++ " ID=" ++ nickname ++ " " ++
        kvPairsString parameters.options ++ "\n") ⟨opts, .subsessionCreatePending d⟩ ∧
    SessionController.handle_response ⟨opts, .subsessionCreatePending d⟩ line =
      .ok () ⟨opts, .active d .uninitialized⟩ ∧
    SessionController.new_for_subsession ⟨opts, .active d .uninitialized⟩ opts₂ =
      some ⟨opts₂, .active d .uninitialized⟩ ∧
    SessionController.destination ⟨opts₂, .active d .uninitialized⟩ =
      SessionController.destination ⟨opts, .active d .uninitialized⟩ := by
  refine ⟨rfl, ?_, rfl, rfl⟩
  simp [SessionController.handle_response, hline]

/-- Witness for C9 at concrete inputs. -/
theorem c9_subsession_inherits_destination_witness :
    SessionController.create_subsession
      ⟨sampleOptions, .active "I2P_DESTINATION" .uninitialized⟩ "child"
      ⟨"STREAM", []⟩ =
      .ok ("SESSION ADD STYLE=" ++ "STREAM" ++ " ID=" ++ "child" ++ " " ++
        kvPairsString [] ++ "\n")
        ⟨sampleOptions, .subsessionCreatePending "I2P_DESTINATION"⟩ ∧
    SessionController.handle_response
      ⟨sampleOptions, .subsessionCreatePending "I2P_DESTINATION"⟩
      "SESSION STATUS RESULT=OK ID=child" =
      .ok () ⟨sampleOptions, .active "I2P_DESTINATION" .uninitialized⟩ ∧
    SessionController.new_for_subsession
      ⟨sampleOptions, .active "I2P_DESTINATION" .uninitialized⟩ sampleOptions =
      some ⟨sampleOptions, .active "I2P_DESTINATION" .uninitialized⟩ ∧
    SessionController.destination
      ⟨sampleOptions, .active "I2P_DESTINATION" .uninitialized⟩ =
      SessionController.destination
        ⟨sampleOptions, .active "I2P_DESTINATION" .uninitialized⟩ :=
  c9_subsession_inherits_destination sampleOptions sampleOptions "child"
    ⟨"STREAM", []⟩ "I2P_DESTINATION" "child" .uninitialized
    "SESSION STATUS RESULT=OK ID=child" (by decide)

/-- C10: `recv_from` is not total on malformed input. A packet with no space
byte panics on the first `position(..).unwrap()`; a packet with a space and
an ASCII source destination but no newline panics on the second; a
well-framed packet whose payload exceeds the caller's buffer panics on the
`copy_from_slice` index; a source destination that is not valid UTF-8 is the
one case reported as `Error::Malformed` (checked before the newline
search). -/
theorem c10_recv_from_partiality :
    (∀ (packet : List Nat) (bufLen : Nat), (∀ b ∈ packet, b ≠ 32) →
      Repliable.recv_from packet bufLen = .panicked) ∧
    (∀ (src rest : List Nat) (bufLen : Nat), (∀ b ∈ src, b ≠ 32) →
      (∀ b ∈ src, b < 128) → (∀ b ∈ src, b ≠ 10) → (∀ b ∈ rest, b ≠ 10) →
      src.length + rest.length + 1 ≤ repliableBufferSize →
      Repliable.recv_from (src ++ 32 :: rest) bufLen = .panicked) ∧
    (∀ (src hdr payload : List Nat) (bufLen : Nat), (∀ b ∈ src, b ≠ 32) →
      (∀ b ∈ src, b ≠ 10) → (∀ b ∈ hdr, b ≠ 10) → (∀ b ∈ src, b < 128) →
      src.length + hdr.length + payload.length + 2 ≤ repliableBufferSize →
      bufLen < payload.length →
      Repliable.recv_from (src ++ 32 :: hdr ++ 10 :: payload) bufLen = .panicked) ∧
    (∀ (src rest : List Nat) (bufLen : Nat), (∀ b ∈ src, b ≠ 32) →
      validUtf8 src = false →
      src.length + rest.length + 1 ≤ repliableBufferSize →
      Repliable.recv_from (src ++ 32 :: rest) bufLen = .malformed) := by
  refine ⟨?_, ?_, ?_, ?_⟩
  · intro packet bufLen h32
    have hpos : position (· = 32) (packet.take repliableBufferSize) = none :=
      position_none (fun b hb => by simp [h32 b (List.mem_of_mem_take hb)])
    simp only [Repliable.recv_from, hpos]
  · intro src rest bufLen h32 hascii hsrc10 hrest10 hsize
    have hlen : (src ++ 32 :: rest).length = src.length + rest.length + 1 := by
      simp only [List.length_append, List.length_cons]; omega
    have htake : (src ++ 32 :: rest).take repliableBufferSize = src ++ 32 :: rest :=
      List.take_of_length_le (by rw [hlen]; exact hsize)
    have hpos32 : position (· = 32) (src ++ 32 :: rest) = some src.length :=
      position_append (fun b hb => by simp [h32 b hb]) (by simp)
    have htakedest : (src ++ 32 :: rest).take src.length = src :=
      List.take_left src _
    have hpos10 : position (· = 10) (src ++ 32 :: rest) = none := by
      refine position_none (fun b hb => ?_)
      simp only [List.mem_append, List.mem_cons] at hb
      rcases hb with h | h | h
      · simp [hsrc10 b h]
      · subst h; decide
      · simp [hrest10 b h]
    simp only [Repliable.recv_from, htake, hpos32, htakedest,
      validUtf8_of_ascii hascii, if_true, hpos10]
  · intro src hdr payload bufLen h32 hsrc10 hhdr10 hascii hsize hbuf
    rw [recv_from_structured src hdr payload bufLen h32 hsrc10 hhdr10 hascii hsize]
    rw [if_pos hbuf]
  · intro src rest bufLen h32 hbad hsize
    have hlen : (src ++ 32 :: rest).length = src.length + rest.length + 1 := by
      simp only [List.length_append, List.length_cons]; omega
    have htake : (src ++ 32 :: rest).take repliableBufferSize = src ++ 32 :: rest :=
      List.take_of_length_le (by rw [hlen]; exact hsize)
    have hpos32 : position (· = 32) (src ++ 32 :: rest) = some src.length :=
      position_append (fun b hb => by simp [h32 b hb]) (by simp)
    have htakedest : (src ++ 32 :: rest).take src.length = src :=
      List.take_left src _
    simp only [Repliable.recv_from, htake, hpos32, htakedest, hbad,
      Bool.false_eq_true, if_false]

/-- Witness for C10 at concrete inputs: a packet with no space, one with no
newline, one whose payload exceeds a 1-byte buffer, and one whose source
destination is the invalid UTF-8 byte `0xff`. -/
theorem c10_recv_from_partiality_witness :
    Repliable.recv_from [1, 2, 3] 0 = .panicked ∧
    Repliable.recv_from ([83] ++ 32 :: [72]) 0 = .panicked ∧
    Repliable.recv_from ([83] ++ 32 :: [] ++ 10 :: [1, 2]) 1 = .panicked ∧
    Repliable.recv_from ([255] ++ 32 :: []) 0 = .malformed :=
  ⟨c10_recv_from_partiality.1 [1, 2, 3] 0 (by decide),
   c10_recv_from_partiality.2.1 [83] [72] 0 (by decide) (by decide) (by decide)
     (by decide) (by decide),
   c10_recv_from_partiality.2.2.1 [83] [] [1, 2] 1 (by decide) (by decide)
     (by decide) (by decide) (by decide) (by decide),
   c10_recv_from_partiality.2.2.2 [255] [] 0 (by decide) (by decide) (by decide)⟩

end Yosemite
